import Mathlib

/-!
Verification development for the PGBookingBackend repository
(`booking_backend.py`): a Flask HTTP server that computes free one-hour
booking slots against Google-Calendar busy intervals and books slots by
creating calendar events.

The embedding below translates the source file.  Instants are modelled in
minutes: a Python `datetime` becomes a `PyDT`, a wall-clock minute count
since the epoch together with an optional UTC offset (in minutes).
`tzinfo=None` (a naive datetime) is `off = none`.  Python raises
`TypeError` when comparing a naive datetime with an aware one, so
comparisons return `Except String Bool`.  Days are counted in days since
1970-01-01.  The external Google Calendar service is an explicit
parameter (the fetched event list for the availability route, an
`insert` function for the booking route); the calendar events actually
created by a booking call are returned as an explicit list, making the
side effect visible.
-/

/-- A Python `datetime`: wall-clock minutes since epoch in its own
timezone, plus the timezone UTC offset in minutes (`none` = naive). -/
structure PyDT where
  wall : Int
  off : Option Int
  deriving DecidableEq

/-- The fixed IST offset (UTC+5:30) used throughout the source, in
minutes. -/
def istOff : Int := 330

/-- The message of the `TypeError` Python raises when a naive and an
aware datetime are compared. -/
def naive_cmp_msg : String :=
  "TypeError: cannot compare offset-naive and offset-aware datetimes"

/-- Python `<` on datetimes: aware/aware compares absolute instants,
naive/naive compares wall values, mixed raises `TypeError`. -/
def pyLt (a b : PyDT) : Except String Bool :=
  match a.off, b.off with
  | some oa, some ob => .ok (decide (a.wall - oa < b.wall - ob))
  | none, none => .ok (decide (a.wall < b.wall))
  | _, _ => .error naive_cmp_msg

/-- Python `<=` on datetimes (same mixing rule as `pyLt`). -/
def pyLe (a b : PyDT) : Except String Bool :=
  match a.off, b.off with
  | some oa, some ob => .ok (decide (a.wall - oa ≤ b.wall - ob))
  | none, none => .ok (decide (a.wall ≤ b.wall))
  | _, _ => .error naive_cmp_msg

/-- Python `dt.date()`: the wall-clock calendar day (days since epoch);
defined for naive and aware datetimes alike. -/
def PyDT.date (a : PyDT) : Int := a.wall.ediv 1440

/-- A busy interval as built from a fetched calendar event:
`(start_dt, end_dt, title)` (source lines 141-147). -/
structure BusyEv where
  startDT : PyDT
  endDT : PyDT
  title : String
  deriving DecidableEq

/-- `WORK_HOURS` (source lines 33-37): (07:00,13:00), (15:00,18:00),
(19:00,23:00) as minutes of the day. -/
def WORK_HOURS : List (Int × Int) := [(420, 780), (900, 1080), (1140, 1380)]

/-- Zero-padded two-digit rendering of a (small nonnegative) number,
as `strftime` does for `%H`/`%M`/`%d`/`%m`. -/
def pad2 (n : Int) : String := (if n < 10 then "0" else "") ++ toString n

/-- `strftime("%H:%M")` of a wall-minute count. -/
def fmtHM (w : Int) : String :=
  pad2 ((w.emod 1440).ediv 60) ++ ":" ++ pad2 ((w.emod 1440).emod 60)

/-- The slot string `f"{start:%H:%M}-{end:%H:%M}"` built at source
line 99, from the slot's start wall minute. -/
def fmt_slot (w : Int) : String := fmtHM w ++ "-" ++ fmtHM (w + 60)

/-- `min_bookable_time` (source lines 49-53): current UTC instant viewed
in IST plus the fixed 2-hour lead.  `now_utc` is the current absolute
instant in minutes. -/
def min_bookable (now_utc : Int) : PyDT := ⟨now_utc + istOff + 120, some istOff⟩

/-- `calendar_tz` (source lines 58-62): the timezone of the first busy
event when any exist, otherwise IST. -/
def cal_off (busy_events : List BusyEv) : Option Int :=
  match busy_events with
  | [] => some istOff
  | b :: _ => b.startDT.off

/-- The per-busy-event conflict test (source line 90):
`current_slot_start < busy_end and current_slot_end > busy_start`, with
Python's short-circuit `and` (the second comparison is evaluated only
when the first is true). -/
def has_overlap_e (s e : PyDT) (b : BusyEv) : Except String Bool :=
  match pyLt s b.endDT with
  | .error msg => .error msg
  | .ok false => .ok false
  | .ok true => pyLt b.startDT e

/-- The inner `for busy_start, busy_end, busy_title in day_busy_events`
loop (source lines 89-95): stops at the first conflicting busy event. -/
def any_overlap (s e : PyDT) : List BusyEv → Except String Bool
  | [] => .ok false
  | b :: rest =>
    match has_overlap_e s e b with
    | .error msg => .error msg
    | .ok true => .ok true
    | .ok false => any_overlap s e rest

/-- The `while current_slot_start + 1h <= work_end` loop of
`get_free_slots` (source lines 75-103).  `wall` is the wall-clock minute
of `current_slot_start` and `wEnd` that of `work_end`; both datetimes
carry the same `calOff` timezone, so the loop guard is a wall-clock
comparison.  `fuel` bounds the iteration count; callers pass one more
than the number of one-hour steps that fit in the window, so the fuel
never runs out before the guard fails. -/
def slot_loop (calOff : Option Int) (minB : PyDT) (dayBusy : List BusyEv)
    (wEnd : Int) (wall : Int) : Nat → Except String (List String)
  | 0 => .ok []
  | fuel + 1 =>
    if wall + 60 ≤ wEnd then
      -- is_future_enough = current_slot_start >= min_bookable_time
      match pyLe minB ⟨wall, calOff⟩ with
      | .error msg => .error msg
      | .ok isFuture =>
        if isFuture = false then
          slot_loop calOff minB dayBusy wEnd (wall + 60) fuel
        else
          match any_overlap ⟨wall, calOff⟩ ⟨wall + 60, calOff⟩ dayBusy with
          | .error msg => .error msg
          | .ok true => slot_loop calOff minB dayBusy wEnd (wall + 60) fuel
          | .ok false =>
            match slot_loop calOff minB dayBusy wEnd (wall + 60) fuel with
            | .error msg => .error msg
            | .ok rest => .ok (fmt_slot wall :: rest)
    else .ok []

/-- The `for wh_start, wh_end in WORK_HOURS` loop (source lines 71-103):
the grid for each window is anchored at `day` in the `calOff` timezone. -/
def windows_loop (calOff : Option Int) (minB : PyDT) (dayBusy : List BusyEv)
    (day : Int) : List (Int × Int) → Except String (List String)
  | [] => .ok []
  | (whs, whe) :: rest =>
    match slot_loop calOff minB dayBusy (day * 1440 + whe) (day * 1440 + whs)
        ((whe - whs).toNat / 60 + 1) with
    | .error msg => .error msg
    | .ok slots =>
      match windows_loop calOff minB dayBusy day rest with
      | .error msg => .error msg
      | .ok more => .ok (slots ++ more)

/-- `get_free_slots(day, busy_events)` (source lines 42-105).  The
current instant, read from the clock in the source, is the explicit
parameter `now_utc` (absolute minutes).  Returns the formatted free
slots, or the exception message when a naive/aware comparison raises. -/
def get_free_slots (now_utc : Int) (day : Int) (busy_events : List BusyEv) :
    Except String (List String) :=
  let day_busy := busy_events.filter (fun b => b.startDT.date == day)
  windows_loop (cal_off busy_events) (min_bookable now_utc) day_busy day WORK_HOURS

/-- Gregorian date (year, month, day) of an epoch-day count
(days since 1970-01-01), the civil-from-days algorithm underlying
`date.strftime`. -/
def civil_from_days (z : Int) : Int × Int × Int :=
  let a := z + 719468
  let era := a.ediv 146097
  let doe := a - era * 146097
  let yoe := (doe - doe.ediv 1460 + doe.ediv 36524 - doe.ediv 146096).ediv 365
  let y := yoe + era * 400
  let doy := doe - (365 * yoe + yoe.ediv 4 - yoe.ediv 100)
  let mp := (5 * doy + 2).ediv 153
  let d := doy - (153 * mp + 2).ediv 5 + 1
  let m := mp + (if mp < 10 then 3 else -9)
  (if m ≤ 2 then y + 1 else y, m, d)

/-- Epoch-day count of a Gregorian date, the days-from-civil algorithm
underlying `datetime.date`. -/
def days_from_civil (y m d : Int) : Int :=
  let y2 := y - (if m ≤ 2 then 1 else 0)
  let era := y2.ediv 400
  let yoe := y2 - era * 400
  let mp := if m > 2 then m - 3 else m + 9
  let doy := (153 * mp + 2).ediv 5 + d - 1
  let doe := yoe * 365 + yoe.ediv 4 - yoe.ediv 100 + doy
  era * 146097 + doe - 719468

/-- Four-digit zero-padded year, as `strftime("%Y")`. -/
def pad4 (n : Int) : String :=
  (if n < 10 then "000" else if n < 100 then "00" else if n < 1000 then "0" else "")
    ++ toString n

/-- `strftime("%B")` month names. -/
def month_name (m : Int) : String :=
  ["January", "February", "March", "April", "May", "June", "July",
   "August", "September", "October", "November", "December"].getD (m - 1).toNat ""

/-- `day.strftime("%Y-%m-%d")` of an epoch-day count. -/
def iso_date (z : Int) : String :=
  match civil_from_days z with
  | (y, m, d) => pad4 y ++ "-" ++ pad2 m ++ "-" ++ pad2 d

/-- `day.strftime("%d %B %Y")` of an epoch-day count. -/
def long_date (z : Int) : String :=
  match civil_from_days z with
  | (y, m, d) => pad2 d ++ " " ++ month_name m ++ " " ++ pad4 y

/-- `day.strftime("%A")`: 1970-01-01 was a Thursday. -/
def day_name (z : Int) : String :=
  ["Sunday", "Monday", "Tuesday", "Wednesday", "Thursday", "Friday",
   "Saturday"].getD ((z + 4).emod 7).toNat ""

/-- The start/end field of a fetched Google Calendar event: either a
timed instant (`dateTime`, carrying an offset, parsed by
`fromisoformat` into an aware datetime) or an all-day `date` (parsed by
`fromisoformat` into a naive midnight). -/
inductive GCalTime where
  | timed (wall : Int) (off : Int)
  | date (day : Int)
  deriving DecidableEq

/-- A fetched calendar event as consumed by the conversion loop at
source lines 142-147. -/
structure GEvent where
  start : GCalTime
  stop : GCalTime
  summary : Option String
  deriving DecidableEq

/-- `datetime.fromisoformat` applied to the start/end string
(source lines 145-146): a `dateTime` yields an aware datetime, a bare
`date` yields a naive midnight. -/
def parse_gcal_time : GCalTime → PyDT
  | .timed w o => ⟨w, some o⟩
  | .date d => ⟨d * 1440, none⟩

/-- One entry of `busy_slots` (source line 147). -/
def to_busy (e : GEvent) : BusyEv :=
  ⟨parse_gcal_time e.start, parse_gcal_time e.stop, e.summary.getD "(No Title)"⟩

/-- The per-day value of the availability mapping (source
lines 160-164). -/
structure DayInfo where
  dayName : String
  dayDate : String
  slots : List String
  deriving DecidableEq

/-- Response of the availability route: the JSON mapping (as an ordered
association list, keys in insertion order) or an error status. -/
inductive AvailResp where
  | ok (m : List (String × DayInfo))
  | err (code : Nat) (msg : String)
  deriving DecidableEq

/-- The `for i in range(8)` loop of `get_available_slots` (source
lines 151-164): one entry per day with a nonempty free-slot list, in
day order. -/
def days_loop (now_utc : Int) (busy : List BusyEv) (today : Int) :
    List Nat → Except String (List (String × DayInfo))
  | [] => .ok []
  | i :: rest =>
    let day := today + i
    match get_free_slots now_utc day busy with
    | .error msg => .error msg
    | .ok free_slots =>
      match days_loop now_utc busy today rest with
      | .error msg => .error msg
      | .ok more =>
        if free_slots = [] then .ok more
        else .ok ((iso_date day, ⟨day_name day, long_date day, free_slots⟩) :: more)

/-- `GET /api/available-slots` (source lines 107-171).  The events
fetched from the calendar service are the explicit `events` parameter;
`today` is the UTC date of the current instant (line 114).  Any raised
exception is caught and mapped to a 500 payload (lines 169-171). -/
def get_available_slots (now_utc : Int) (events : List GEvent) : AvailResp :=
  let today := now_utc.ediv 1440
  let busy_slots := events.map to_busy
  match days_loop now_utc busy_slots today (List.range 8) with
  | .ok m => .ok m
  | .error msg => .err 500 ("Failed to fetch available slots: " ++ msg)

/-- HTTP status code of an availability response. -/
def avail_code : AvailResp → Nat
  | .ok _ => 200
  | .err c _ => c

/-- One requested slot of the booking body; a `none` field models a
missing dictionary key (`slot['date']` / `slot['time']` raise `KeyError`
when absent, source lines 198-199). -/
structure SlotReq where
  date : Option String
  time : Option String
  deriving DecidableEq

/-- The parsed JSON body of `POST /api/book-slots`: the `student` dict
(as a key/value list) and the `slots` list, each defaulting to empty
when the key is missing (source lines 182-183). -/
structure BookData where
  student : List (String × String)
  slots : List SlotReq
  deriving DecidableEq

/-- `dict.get(key, default)` on the student record. -/
def dget (d : List (String × String)) (k default : String) : String :=
  match d.find? (fun p => p.1 == k) with
  | some p => p.2
  | none => default

/-- Splitting a character list at every occurrence of a separator
character, keeping empty groups, as Python `str.split(sep)` does for a
one-character separator. -/
def split_char (sep : Char) : List Char → List (List Char)
  | [] => [[]]
  | c :: rest =>
    match split_char sep rest with
    | [] => if c = sep then [[], []] else [[c]]
    | g :: gs => if c = sep then [] :: g :: gs else (c :: g) :: gs

/-- Python `s.split(sep)` for a one-character separator. -/
def py_split (sep : Char) (s : String) : List String :=
  (split_char sep s.data).map (fun cs => String.mk cs)

/-- Numeric value of a digit string. -/
def chars_to_nat (cs : List Char) : Nat :=
  cs.foldl (fun acc c => acc * 10 + (c.toNat - 48)) 0

/-- All characters are digits and the string is nonempty. -/
def all_digits (s : String) : Bool := !s.data.isEmpty && s.data.all Char.isDigit

/-- Whether a Gregorian year is a leap year. -/
def is_leap (y : Int) : Bool := y.emod 4 == 0 && (y.emod 100 != 0 || y.emod 400 == 0)

/-- Length in days of a month. -/
def days_in_month (y m : Int) : Int :=
  if m == 2 then (if is_leap y then 29 else 28)
  else if m == 4 || m == 6 || m == 9 || m == 11 then 30
  else 31

/-- `datetime.strptime(date_str, "%Y-%m-%d").date()` (source line 206):
an exactly-4-digit year (the CPython `%Y` pattern is four digits), a
1-2 digit month and day, month and day in range for a real calendar
date, year at least 1; the result is the epoch-day count.  Failures
model the `ValueError` raised by `strptime`. -/
def parse_date (s : String) : Except String Int :=
  match py_split '-' s with
  | [ys, ms, ds] =>
    if all_digits ys && ys.length == 4 && all_digits ms && ms.length ≤ 2
        && all_digits ds && ds.length ≤ 2 then
      let y : Int := (chars_to_nat ys.data : Nat)
      let m : Int := (chars_to_nat ms.data : Nat)
      let d : Int := (chars_to_nat ds.data : Nat)
      if y < 1 || m < 1 || m > 12 || d < 1 || d > days_in_month y m then
        .error "ValueError: day is out of range"
      else .ok (days_from_civil y m d)
    else .error "ValueError: time data does not match format %Y-%m-%d"
  | _ => .error "ValueError: time data does not match format %Y-%m-%d"

/-- `datetime.strptime(t, "%H:%M").time()` (source lines 207-208) as
minutes of the day. -/
def parse_time (s : String) : Except String Int :=
  match py_split ':' s with
  | [hs, ms] =>
    if all_digits hs && hs.length ≤ 2 && all_digits ms && ms.length ≤ 2 then
      let h : Int := (chars_to_nat hs.data : Nat)
      let m : Int := (chars_to_nat ms.data : Nat)
      if h > 23 || m > 59 then .error "ValueError: time data out of range"
      else .ok (h * 60 + m)
    else .error "ValueError: time data does not match format %H:%M"
  | _ => .error "ValueError: time data does not match format %H:%M"

/-- `start_time_str, end_time_str = time_range.split('-')`
(source line 203): succeeds only with exactly one dash. -/
def split2_dash (s : String) : Option (String × String) :=
  match py_split '-' s with
  | [a, b] => some (a, b)
  | _ => none

/-- The calendar event payload handed to the insert call: the derived
summary line and the start/end instants in IST (source lines 210-211,
221-264).  The remaining payload fields (description, attendee,
conference request, reminders, guest permissions) are static renderings
of the same student record and do not influence control flow, so they
are not repeated here. -/
structure CalEvent where
  summary : String
  startDT : PyDT
  endDT : PyDT
  deriving DecidableEq

/-- The relevant parts of the response of `events().insert(...).execute()`:
the event id, the optional `htmlLink`, and the conference entry-point
URIs.  `entryPoints = none` models a response without
`conferenceData`/`entryPoints` (both `.get` defaults apply); `some l`
models a present entry-point list whose members may lack `uri`. -/
structure InsertResult where
  id : String
  htmlLink : Option String
  entryPoints : Option (List (Option String))
  deriving DecidableEq

/-- The Meet-link extraction
`created_event.get('conferenceData', {}).get('entryPoints', [{}])[0].get('uri', 'No Meet link generated')`
(source line 278): a missing field falls back to the sentinel, but a
present-and-empty entry-point list raises `IndexError` at `[0]`. -/
def meet_link : Option (List (Option String)) → Except String String
  | none => .ok "No Meet link generated"
  | some [] => .error "IndexError: list index out of range"
  | some (u :: _) => .ok (u.getD "No Meet link generated")

/-- One element of the `created_events` list (source lines 275-281). -/
structure CreatedBooking where
  id : String
  htmlLink : String
  meetLink : String
  date : String
  time : String
  deriving DecidableEq

/-- Outcome of processing a single requested slot (the body of the
`for slot in slots` loop, source lines 195-287): an event was created
and recorded; or the lead-time re-check failed (the 400 return at
lines 214-218); or an exception was raised (the inner handler at
lines 285-287, with `some ev` when the event had already been inserted
before the failure). -/
inductive StepRes where
  | created (cb : CreatedBooking) (ev : CalEvent)
  | badLead (msg : String)
  | failed (msg : String) (inserted : Option CalEvent)
  deriving DecidableEq

/-- Inner-handler error message (source line 287). -/
def slot_err (d t e : String) : String :=
  "Error processing slot " ++ d ++ " " ++ t ++ ": " ++ e

/-- The per-slot pipeline (source lines 196-287): read the `date` and
`time` fields, split the range, parse with `strptime`, rebuild IST
instants, re-check the 2-hour lead, insert the event, and extract the
Meet link.  A missing `date`/`time` key raises `KeyError` (surfaced
through the handlers as a 500; the exact message text then depends on
Python variable scoping and is abstracted here). -/
def slot_step (minB : PyDT) (insert : CalEvent → Except String InsertResult)
    (student : List (String × String)) (s : SlotReq) : StepRes :=
  match s.date with
  | none => .failed "KeyError: date" none
  | some date_str =>
    match s.time with
    | none => .failed "KeyError: time" none
    | some time_range =>
      match split2_dash time_range with
      | none => .failed (slot_err date_str time_range "ValueError: unpack") none
      | some (start_time_str, end_time_str) =>
        match parse_date date_str with
        | .error e => .failed (slot_err date_str time_range e) none
        | .ok date_obj =>
          match parse_time start_time_str with
          | .error e => .failed (slot_err date_str time_range e) none
          | .ok start_time =>
            match parse_time end_time_str with
            | .error e => .failed (slot_err date_str time_range e) none
            | .ok end_time =>
              let start_datetime : PyDT := ⟨date_obj * 1440 + start_time, some istOff⟩
              let end_datetime : PyDT := ⟨date_obj * 1440 + end_time, some istOff⟩
              match pyLt start_datetime minB with
              | .error e => .failed (slot_err date_str time_range e) none
              | .ok true =>
                .badLead ("Slot " ++ date_str ++ " " ++ time_range
                  ++ " is too close to current time. Please select a slot at least 2 hours from now.")
              | .ok false =>
                let ev : CalEvent :=
                  ⟨dget student "sessionType" "Python Session" ++ " - "
                      ++ dget student "name" "Student",
                    start_datetime, end_datetime⟩
                match insert ev with
                | .error e => .failed (slot_err date_str time_range e) none
                | .ok r =>
                  match meet_link r.entryPoints with
                  | .error e => .failed (slot_err date_str time_range e) (some ev)
                  | .ok ml =>
                    .created ⟨r.id, r.htmlLink.getD "", ml, date_str, time_range⟩ ev

/-- Response of the booking route: the 200 success payload (message and
created-booking records) or an error payload with its status code;
error payloads carry no events list (source lines 215-218, 287,
289-293, 297). -/
inductive BookResp where
  | success (msg : String) (events : List CreatedBooking)
  | err (code : Nat) (msg : String)
  deriving DecidableEq

/-- The success message `f'Successfully booked {len(slots)} session(s)'`
(source line 291). -/
def success_msg (n : Nat) : String :=
  "Successfully booked " ++ toString n ++ " session(s)"

/-- The `for slot in slots` loop (source lines 195-293): `created` is
the accumulated `created_events` list and `inserted` the calendar
events actually created so far (the external side effect, made
explicit).  The first bad-lead slot returns 400 and the first raising
slot returns 500, both keeping earlier insertions. -/
def book_loop (total : Nat) (minB : PyDT)
    (insert : CalEvent → Except String InsertResult)
    (student : List (String × String)) :
    List SlotReq → List CreatedBooking → List CalEvent → BookResp × List CalEvent
  | [], created, inserted => (.success (success_msg total) created, inserted)
  | s :: rest, created, inserted =>
    match slot_step minB insert student s with
    | .created cb ev =>
      book_loop total minB insert student rest (created ++ [cb]) (inserted ++ [ev])
    | .badLead msg => (.err 400 msg, inserted)
    | .failed msg oev => (.err 500 msg, inserted ++ oev.toList)

/-- `POST /api/book-slots` (source lines 173-297).  `data` is the parsed
JSON body (`none` when `get_json` yielded nothing), `insert` the
external create-event operation, `now_utc` the current instant.
Returns the HTTP response together with the list of calendar events
created by the call. -/
def book_slots (now_utc : Int) (insert : CalEvent → Except String InsertResult)
    (data : Option BookData) : BookResp × List CalEvent :=
  match data with
  | none => (.err 400 "No data received", [])
  | some d =>
    if d.student.isEmpty || d.slots.isEmpty then
      (.err 400 "Missing student or slots data", [])
    else
      book_loop d.slots.length (min_bookable now_utc) insert d.student d.slots [] []

/-- HTTP status code of a booking response. -/
def resp_code : BookResp → Nat
  | .success _ _ => 200
  | .err c _ => c

/-- Whether the per-slot pipeline creates an event for this slot:
it parses, passes the lead-time re-check, and the upstream insert and
Meet-link extraction succeed.  Note that no working-hours, duration, or
busy-interval condition appears here. -/
def step_created (minB : PyDT) (insert : CalEvent → Except String InsertResult)
    (student : List (String × String)) (s : SlotReq) : Bool :=
  match slot_step minB insert student s with
  | .created _ _ => true
  | _ => false

/-- Whether the per-slot pipeline rejects this slot for violating the
2-hour lead (it parses but starts before `minB`). -/
def step_lead_bad (minB : PyDT) (insert : CalEvent → Except String InsertResult)
    (student : List (String × String)) (s : SlotReq) : Bool :=
  match slot_step minB insert student s with
  | .badLead _ => true
  | _ => false

/-- Whether the per-slot pipeline raises for this slot (malformed
strings, missing keys, or upstream failure). -/
def step_failed (minB : PyDT) (insert : CalEvent → Except String InsertResult)
    (student : List (String × String)) (s : SlotReq) : Bool :=
  match slot_step minB insert student s with
  | .failed _ _ => true
  | _ => false

/-- A concrete always-succeeding insert operation, used to instantiate
theorems. -/
def insert0 : CalEvent → Except String InsertResult :=
  fun _ => .ok ⟨"evt-1", some "link-1", some [some "meet-1"]⟩

/-- A concrete nonempty student record. -/
def stu1 : List (String × String) := [("name", "Asha"), ("email", "asha@example.com")]

deriving instance DecidableEq for Except

/-! ## Lemmas about the slot engine -/

/-- Every slot string emitted by the while loop corresponds to a start
minute `w` that is on or after the loop entry point, leaves a full hour
before the window end, passes the lead-time check, and conflicts with
no filtered busy event. -/
theorem slot_loop_mem {calOff : Option Int} {minB : PyDT} {dayBusy : List BusyEv}
    {wEnd : Int} :
    ∀ (fuel : Nat) (wall : Int) (l : List String),
      slot_loop calOff minB dayBusy wEnd wall fuel = .ok l →
      ∀ str ∈ l, ∃ w : Int, str = fmt_slot w ∧ wall ≤ w ∧ w + 60 ≤ wEnd ∧
        pyLe minB ⟨w, calOff⟩ = .ok true ∧
        any_overlap ⟨w, calOff⟩ ⟨w + 60, calOff⟩ dayBusy = .ok false := by
  intro fuel
  induction fuel with
  | zero =>
    intro wall l h str hm
    simp only [slot_loop, Except.ok.injEq] at h
    subst h
    simp at hm
  | succ n ih =>
    intro wall l h str hm
    simp only [slot_loop] at h
    by_cases hg : wall + 60 ≤ wEnd
    · rw [if_pos hg] at h
      cases hple : pyLe minB ⟨wall, calOff⟩ with
      | error e => simp [hple] at h
      | ok isF =>
        simp only [hple] at h
        by_cases hf : isF = false
        · rw [if_pos hf] at h
          obtain ⟨w, hw, hle, hrest⟩ := ih (wall + 60) l h str hm
          exact ⟨w, hw, by omega, hrest⟩
        · rw [if_neg hf] at h
          have hf' : isF = true := by
            cases isF
            · exact absurd rfl hf
            · rfl
          cases hov : any_overlap ⟨wall, calOff⟩ ⟨wall + 60, calOff⟩ dayBusy with
          | error e => simp [hov] at h
          | ok b =>
            simp only [hov] at h
            cases b with
            | true =>
              obtain ⟨w, hw, hle, hrest⟩ := ih (wall + 60) l h str hm
              exact ⟨w, hw, by omega, hrest⟩
            | false =>
              cases hrec : slot_loop calOff minB dayBusy wEnd (wall + 60) n with
              | error e => simp [hrec] at h
              | ok rest =>
                simp only [hrec, Except.ok.injEq] at h
                subst h
                rcases List.mem_cons.1 hm with hstr | hstr
                · subst hstr
                  exact ⟨wall, rfl, le_refl wall, hg, by rw [hf'] at hple; exact hple, hov⟩
                · obtain ⟨w, hw, hle, hrest⟩ := ih (wall + 60) rest hrec str hstr
                  exact ⟨w, hw, by omega, hrest⟩
    · rw [if_neg hg] at h
      simp only [Except.ok.injEq] at h
      subst h
      simp at hm

/-- Every slot string emitted across the working-hour windows lies, with
a full hour to spare, inside one of the windows anchored at `day`. -/
theorem windows_loop_mem {calOff : Option Int} {minB : PyDT} {dayBusy : List BusyEv}
    {day : Int} :
    ∀ (ws : List (Int × Int)) (l : List String),
      windows_loop calOff minB dayBusy day ws = .ok l →
      ∀ str ∈ l, ∃ p, p ∈ ws ∧ ∃ w : Int,
        str = fmt_slot w ∧ day * 1440 + p.1 ≤ w ∧ w + 60 ≤ day * 1440 + p.2 ∧
        pyLe minB ⟨w, calOff⟩ = .ok true ∧
        any_overlap ⟨w, calOff⟩ ⟨w + 60, calOff⟩ dayBusy = .ok false := by
  intro ws
  induction ws with
  | nil =>
    intro l h str hm
    simp only [windows_loop, Except.ok.injEq] at h
    subst h
    simp at hm
  | cons p rest ih =>
    intro l h str hm
    obtain ⟨whs, whe⟩ := p
    simp only [windows_loop] at h
    cases hsl : slot_loop calOff minB dayBusy (day * 1440 + whe) (day * 1440 + whs)
        ((whe - whs).toNat / 60 + 1) with
    | error e => simp [hsl] at h
    | ok slots =>
      simp only [hsl] at h
      cases hwl : windows_loop calOff minB dayBusy day rest with
      | error e => simp [hwl] at h
      | ok more =>
        simp only [hwl, Except.ok.injEq] at h
        subst h
        rcases List.mem_append.1 hm with hstr | hstr
        · obtain ⟨w, hw, h1, h2, h3, h4⟩ := slot_loop_mem _ _ _ hsl str hstr
          exact ⟨(whs, whe), List.mem_cons_self _ _, w, hw, h1, h2, h3, h4⟩
        · obtain ⟨q, hq, w, hw⟩ := ih more hwl str hstr
          exact ⟨q, List.mem_cons_of_mem _ hq, w, hw⟩

/-- If the conflict scan reports no conflict, the per-event test
reports no conflict for each scanned busy event. -/
theorem any_overlap_eq_false {s e : PyDT} :
    ∀ l, any_overlap s e l = .ok false →
      ∀ b ∈ l, has_overlap_e s e b = .ok false := by
  intro l
  induction l with
  | nil => intro _ b hb; simp at hb
  | cons c rest ih =>
    intro h b hb
    simp only [any_overlap] at h
    cases hc : has_overlap_e s e c with
    | error e2 => simp [hc] at h
    | ok r =>
      simp only [hc] at h
      cases r with
      | true => simp at h
      | false =>
        rcases List.mem_cons.1 hb with hb | hb
        · subst hb; exact hc
        · exact ih h b hb

/-- C1: every slot returned by the Slot Engine starts at a minute `w`
that lies, together with its full hour, inside one of the configured
working-hour windows of `day`, and conflicts with none of the busy
intervals filtered for that day (the conflict test evaluating to a
definite `false`).  The concrete instance of the claim (working hours
07:00-13:00, busy 09:00-10:00, now 05:00 with the 2-hour lead) is
checked in the witness. -/
theorem slots_within_hours_and_free (now_utc day : Int) (busy : List BusyEv)
    (slots : List String) (h : get_free_slots now_utc day busy = .ok slots)
    (str : String) (hm : str ∈ slots) :
    ∃ w : Int, str = fmt_slot w ∧
      (∃ p, p ∈ WORK_HOURS ∧ day * 1440 + p.1 ≤ w ∧ w + 60 ≤ day * 1440 + p.2) ∧
      (∀ b ∈ busy, b.startDT.date = day →
        has_overlap_e ⟨w, cal_off busy⟩ ⟨w + 60, cal_off busy⟩ b = .ok false) := by
  unfold get_free_slots at h
  obtain ⟨p, hp, w, hw, h1, h2, _, hov⟩ := windows_loop_mem _ _ h str hm
  refine ⟨w, hw, ⟨p, hp, h1, h2⟩, ?_⟩
  intro b hb hdate
  have hbf : b ∈ busy.filter (fun b => b.startDT.date == day) :=
    List.mem_filter.2 ⟨hb, by simp [hdate]⟩
  exact any_overlap_eq_false _ hov b hbf

/-- The single 09:00-10:00 IST busy interval of the C1 example, on
day 1. -/
def c1_busy : List BusyEv := [⟨⟨1980, some 330⟩, ⟨2040, some 330⟩, "Busy nine to ten"⟩]

/-- The slot list the engine returns in the C1 example. -/
def c1_slots : List String :=
  ["07:00-08:00", "08:00-09:00", "10:00-11:00", "11:00-12:00", "12:00-13:00",
   "15:00-16:00", "16:00-17:00", "17:00-18:00", "19:00-20:00", "20:00-21:00",
   "21:00-22:00", "22:00-23:00"]

/-- Witness for C1: the spec example (now 05:00 IST on day 1, busy
09:00-10:00): the engine returns exactly `c1_slots`, which includes
07:00-08:00 and 08:00-09:00, excludes 09:00-10:00, and includes
10:00-11:00, 11:00-12:00 and 12:00-13:00; the invariant theorem applies
to the returned slot 07:00-08:00. -/
theorem slots_within_hours_and_free_witness :
    get_free_slots 1410 1 c1_busy = .ok c1_slots ∧
    "07:00-08:00" ∈ c1_slots ∧ "08:00-09:00" ∈ c1_slots ∧
    "09:00-10:00" ∉ c1_slots ∧ "10:00-11:00" ∈ c1_slots ∧
    "11:00-12:00" ∈ c1_slots ∧ "12:00-13:00" ∈ c1_slots ∧
    (∃ w : Int, "07:00-08:00" = fmt_slot w ∧
      (∃ p, p ∈ WORK_HOURS ∧ 1 * 1440 + p.1 ≤ w ∧ w + 60 ≤ 1 * 1440 + p.2) ∧
      (∀ b ∈ c1_busy, b.startDT.date = 1 →
        has_overlap_e ⟨w, cal_off c1_busy⟩ ⟨w + 60, cal_off c1_busy⟩ b = .ok false)) :=
  ⟨by decide, by decide, by decide, by decide, by decide, by decide, by decide,
    slots_within_hours_and_free 1410 1 c1_busy c1_slots (by decide)
      "07:00-08:00" (by decide)⟩

/-- C2: every slot returned by the Slot Engine passes the lead-time
check against `min_bookable_time = now + 2h`: the comparison
`current_slot_start >= min_bookable_time` evaluates to a definite
`true`, and when the grid timezone is aware with offset `oc` the slot's
absolute start is at least `now_utc + 120` minutes.  The concrete
instance (now 06:30, minimum bookable 08:30, no busy intervals) is
checked in the witness. -/
theorem slots_respect_lead_time (now_utc day : Int) (busy : List BusyEv)
    (slots : List String) (h : get_free_slots now_utc day busy = .ok slots)
    (str : String) (hm : str ∈ slots) :
    ∃ w : Int, str = fmt_slot w ∧
      pyLe (min_bookable now_utc) ⟨w, cal_off busy⟩ = .ok true ∧
      ∀ oc, cal_off busy = some oc → now_utc + 120 ≤ w - oc := by
  unfold get_free_slots at h
  obtain ⟨p, hp, w, hw, h1, h2, hple, hov⟩ := windows_loop_mem _ _ h str hm
  refine ⟨w, hw, hple, ?_⟩
  intro oc hoc
  rw [hoc] at hple
  simp only [pyLe, min_bookable, istOff, Except.ok.injEq] at hple
  have := of_decide_eq_true hple
  omega

/-- The slot list the engine returns in the C2 example. -/
def c2_slots : List String :=
  ["09:00-10:00", "10:00-11:00", "11:00-12:00", "12:00-13:00",
   "15:00-16:00", "16:00-17:00", "17:00-18:00", "19:00-20:00", "20:00-21:00",
   "21:00-22:00", "22:00-23:00"]

/-- Witness for C2: the spec example (now 06:30 IST on day 0, so the
minimum bookable instant is 08:30, and no busy intervals): 07:00-08:00
and 08:00-09:00 are excluded, 09:00-10:00 is included; the lead-time
theorem applies to the returned slot 09:00-10:00. -/
theorem slots_respect_lead_time_witness :
    get_free_slots 60 0 [] = .ok c2_slots ∧
    "07:00-08:00" ∉ c2_slots ∧ "08:00-09:00" ∉ c2_slots ∧
    "09:00-10:00" ∈ c2_slots ∧
    (∃ w : Int, "09:00-10:00" = fmt_slot w ∧
      pyLe (min_bookable 60) ⟨w, cal_off []⟩ = .ok true ∧
      ∀ oc, cal_off [] = some oc → 60 + 120 ≤ w - oc) :=
  ⟨by decide, by decide, by decide, by decide,
    slots_respect_lead_time 60 0 [] c2_slots (by decide) "09:00-10:00" (by decide)⟩

/-- C3: the conflict test used by the Slot Engine has half-open
semantics.  For a one-hour candidate slot starting at wall minute `w`
in an aware grid timezone with offset `oc`, and an aware busy interval
`[bs, be)` with offset `ob` (comparisons are between absolute
instants): a busy interval ending exactly at the slot start does not
conflict, a busy interval starting exactly at the slot end does not
conflict, and a busy interval overlapping by any positive amount does
conflict. -/
theorem overlap_half_open (w bs be oc ob : Int) (t : String) :
    (be - ob = w - oc →
      has_overlap_e ⟨w, some oc⟩ ⟨w + 60, some oc⟩ ⟨⟨bs, some ob⟩, ⟨be, some ob⟩, t⟩ =
        .ok false) ∧
    (bs - ob = (w + 60) - oc →
      has_overlap_e ⟨w, some oc⟩ ⟨w + 60, some oc⟩ ⟨⟨bs, some ob⟩, ⟨be, some ob⟩, t⟩ =
        .ok false) ∧
    (bs - ob < (w + 60) - oc → w - oc < be - ob →
      has_overlap_e ⟨w, some oc⟩ ⟨w + 60, some oc⟩ ⟨⟨bs, some ob⟩, ⟨be, some ob⟩, t⟩ =
        .ok true) := by
  refine ⟨?_, ?_, ?_⟩
  · intro h
    simp only [has_overlap_e, pyLt]
    rw [decide_eq_false (by omega)]
  · intro h
    simp only [has_overlap_e, pyLt]
    by_cases h1 : w - oc < be - ob
    · rw [decide_eq_true h1]
      rw [decide_eq_false (by omega)]
    · rw [decide_eq_false h1]
  · intro h1 h2
    simp only [has_overlap_e, pyLt]
    rw [decide_eq_true h2]
    rw [decide_eq_true (by omega)]

/-- A busy interval 08:00-09:00 IST on day 1. -/
def c3_busy1 : List BusyEv := [⟨⟨1920, some 330⟩, ⟨1980, some 330⟩, "eight to nine"⟩]

/-- The engine output for day 1 with `c3_busy1`: the slots adjacent to
the busy interval on both sides remain available. -/
def c3_slots1 : List String :=
  ["07:00-08:00", "09:00-10:00", "10:00-11:00", "11:00-12:00", "12:00-13:00",
   "15:00-16:00", "16:00-17:00", "17:00-18:00", "19:00-20:00", "20:00-21:00",
   "21:00-22:00", "22:00-23:00"]

/-- A busy interval 08:59-09:01 IST on day 1: it overlaps two candidate
slots by one minute each. -/
def c3_busy2 : List BusyEv := [⟨⟨1979, some 330⟩, ⟨1981, some 330⟩, "one minute"⟩]

/-- The engine output for day 1 with `c3_busy2`: both one-minute-touched
slots are gone. -/
def c3_slots2 : List String :=
  ["07:00-08:00", "10:00-11:00", "11:00-12:00", "12:00-13:00",
   "15:00-16:00", "16:00-17:00", "17:00-18:00", "19:00-20:00", "20:00-21:00",
   "21:00-22:00", "22:00-23:00"]

/-- Witness for C3: with a busy interval 08:00-09:00, the slot ending at
its start (07:00-08:00) and the slot starting at its end (09:00-10:00)
are still returned while 08:00-09:00 is not; with a busy interval
08:59-09:01 the one-minute overlaps remove both 08:00-09:00 and
09:00-10:00.  The half-open theorem applies at the corresponding
concrete boundary and one-minute-overlap instances. -/
theorem overlap_half_open_witness :
    get_free_slots 1410 1 c3_busy1 = .ok c3_slots1 ∧
    "07:00-08:00" ∈ c3_slots1 ∧ "09:00-10:00" ∈ c3_slots1 ∧
    "08:00-09:00" ∉ c3_slots1 ∧
    get_free_slots 1410 1 c3_busy2 = .ok c3_slots2 ∧
    "08:00-09:00" ∉ c3_slots2 ∧ "09:00-10:00" ∉ c3_slots2 ∧
    has_overlap_e ⟨1980, some 330⟩ ⟨1980 + 60, some 330⟩
      ⟨⟨1920, some 330⟩, ⟨1980, some 330⟩, "eight to nine"⟩ = .ok false ∧
    has_overlap_e ⟨1860, some 330⟩ ⟨1860 + 60, some 330⟩
      ⟨⟨1920, some 330⟩, ⟨1980, some 330⟩, "eight to nine"⟩ = .ok false ∧
    has_overlap_e ⟨1920, some 330⟩ ⟨1920 + 60, some 330⟩
      ⟨⟨1979, some 330⟩, ⟨1981, some 330⟩, "one minute"⟩ = .ok true :=
  ⟨by decide, by decide, by decide, by decide, by decide, by decide, by decide,
    (overlap_half_open 1980 1920 1980 330 330 "eight to nine").1 (by decide),
    (overlap_half_open 1860 1920 1980 330 330 "eight to nine").2.1 (by decide),
    (overlap_half_open 1920 1979 1981 330 330 "one minute").2.2 (by decide) (by decide)⟩

/-! ## Lemmas about the availability route -/

/-- Characterization of the day loop: an entry appears for a candidate
offset exactly when that day has a nonempty free-slot list, and each
entry carries the formatted day name, date, and the day's slot list. -/
theorem days_loop_mem (now_utc : Int) (busy : List BusyEv) (today : Int) :
    ∀ (idxs : List Nat) (m : List (String × DayInfo)),
      days_loop now_utc busy today idxs = .ok m →
      (∀ e ∈ m, ∃ i ∈ idxs, e.1 = iso_date (today + i) ∧
          get_free_slots now_utc (today + i) busy = .ok e.2.slots ∧
          e.2.slots ≠ [] ∧ e.2.dayName = day_name (today + i) ∧
          e.2.dayDate = long_date (today + i)) ∧
      (∀ i ∈ idxs, ∀ l, get_free_slots now_utc (today + i) busy = .ok l →
          l ≠ [] → ∃ v, (iso_date (today + i), v) ∈ m ∧ v.slots = l) := by
  intro idxs
  induction idxs with
  | nil =>
    intro m h
    simp only [days_loop, Except.ok.injEq] at h
    subst h
    constructor
    · intro e he; simp at he
    · intro i hi; simp at hi
  | cons i rest ih =>
    intro m h
    simp only [days_loop] at h
    cases hfs : get_free_slots now_utc (today + i) busy with
    | error e => simp [hfs] at h
    | ok fs =>
      simp only [hfs] at h
      cases hrest : days_loop now_utc busy today rest with
      | error e => simp [hrest] at h
      | ok more =>
        simp only [hrest] at h
        obtain ⟨ihf, ihb⟩ := ih more hrest
        by_cases hempty : fs = []
        · rw [if_pos hempty, Except.ok.injEq] at h
          subst h
          constructor
          · intro e he
            obtain ⟨j, hj, he⟩ := ihf e he
            exact ⟨j, List.mem_cons_of_mem _ hj, he⟩
          · intro j hj l hl hlne
            rcases List.mem_cons.1 hj with hj | hj
            · subst hj
              rw [hfs, Except.ok.injEq] at hl
              exact absurd (hl.symm.trans hempty) hlne
            · exact ihb j hj l hl hlne
        · rw [if_neg hempty, Except.ok.injEq] at h
          subst h
          constructor
          · intro e he
            rcases List.mem_cons.1 he with he | he
            · subst he
              exact ⟨i, List.mem_cons_self _ _, rfl, hfs, hempty, rfl, rfl⟩
            · obtain ⟨j, hj, he⟩ := ihf e he
              exact ⟨j, List.mem_cons_of_mem _ hj, he⟩
          · intro j hj l hl hlne
            rcases List.mem_cons.1 hj with hj | hj
            · subst hj
              rw [hfs, Except.ok.injEq] at hl
              subst hl
              exact ⟨⟨day_name (today + j), long_date (today + j), fs⟩,
                List.mem_cons_self _ _, rfl⟩
            · obtain ⟨v, hv, hvs⟩ := ihb j hj l hl hlne
              exact ⟨v, List.mem_cons_of_mem _ hv, hvs⟩

/-- C6: when the availability query succeeds, each entry of the returned
mapping is keyed by the ISO date of one of the 8 candidate days (today
plus offsets 0..7), its value holds that day's nonempty free-slot list
together with the formatted day name and date; and conversely every
candidate day with a nonempty free-slot list contributes an entry under
its ISO date key, so days with no free slots are entirely absent. -/
theorem availability_sparse_keys (now_utc : Int) (events : List GEvent)
    (m : List (String × DayInfo)) (h : get_available_slots now_utc events = .ok m) :
    (∀ e ∈ m, ∃ i : Nat, i < 8 ∧ e.1 = iso_date (now_utc.ediv 1440 + i) ∧
        get_free_slots now_utc (now_utc.ediv 1440 + i) (events.map to_busy) = .ok e.2.slots ∧
        e.2.slots ≠ [] ∧ e.2.dayName = day_name (now_utc.ediv 1440 + i) ∧
        e.2.dayDate = long_date (now_utc.ediv 1440 + i)) ∧
    (∀ i : Nat, i < 8 →
        ∀ l, get_free_slots now_utc (now_utc.ediv 1440 + i) (events.map to_busy) = .ok l →
        l ≠ [] → ∃ v, (iso_date (now_utc.ediv 1440 + i), v) ∈ m ∧ v.slots = l) := by
  simp only [get_available_slots] at h
  cases hdl : days_loop now_utc (events.map to_busy) (now_utc.ediv 1440) (List.range 8) with
  | error e => simp [hdl] at h
  | ok m2 =>
    rw [hdl, AvailResp.ok.injEq] at h
    subst h
    obtain ⟨hf, hb⟩ := days_loop_mem now_utc (events.map to_busy) (now_utc.ediv 1440)
      (List.range 8) m2 hdl
    constructor
    · intro e he
      obtain ⟨i, hi, he'⟩ := hf e he
      exact ⟨i, List.mem_range.1 hi, he'⟩
    · intro i hi l hl hlne
      exact hb i (List.mem_range.2 hi) l hl hlne

/-- A single aware busy event covering the whole working day of
1970-01-04 (epoch day 3, 07:00-23:00 IST). -/
def c6_events : List GEvent := [⟨.timed 4740 330, .timed 5700 330, some "full day"⟩]

/-- The mapping the availability query returns for `c6_events` with the
clock frozen at the epoch. -/
def c6_map : List (String × DayInfo) :=
  match get_available_slots 0 c6_events with
  | .ok m => m
  | .err _ _ => []

/-- Witness for C6: with every slot of 1970-01-04 consumed by a busy
interval, that day is entirely absent from the mapping keys, the other
seven candidate days are present, and every present entry has a
nonempty slot list (the last fact obtained through the
characterization theorem). -/
theorem availability_sparse_keys_witness :
    get_available_slots 0 c6_events = .ok c6_map ∧
    "1970-01-04" ∉ c6_map.map Prod.fst ∧
    "1970-01-02" ∈ c6_map.map Prod.fst ∧
    c6_map.map Prod.fst = ["1970-01-01", "1970-01-02", "1970-01-03", "1970-01-05",
      "1970-01-06", "1970-01-07", "1970-01-08"] ∧
    (∀ e ∈ c6_map, e.2.slots ≠ []) := by
  refine ⟨by decide, by decide, by decide, by decide, ?_⟩
  intro e he
  obtain ⟨i, -, -, -, hne, -, -⟩ :=
    (availability_sparse_keys 0 c6_events c6_map (by decide)).1 e he
  exact hne

/-! ## Lemmas about naive busy events (all-day calendar entries) -/

/-- One step of the while loop raises as soon as the loop guard holds
and the lead-time comparison raises. -/
theorem slot_loop_raises {calOff : Option Int} {minB : PyDT} {dayBusy : List BusyEv}
    {wEnd wall : Int} {msg : String} (fuel : Nat)
    (hg : wall + 60 ≤ wEnd) (hcmp : pyLe minB ⟨wall, calOff⟩ = .error msg) :
    slot_loop calOff minB dayBusy wEnd wall (fuel + 1) = .error msg := by
  simp only [slot_loop]
  rw [if_pos hg, hcmp]

/-- When the grid timezone is naive (first fetched event is all-day),
`get_free_slots` raises at the very first candidate slot: the lead-time
comparison mixes the naive grid with the aware minimum bookable time. -/
theorem get_free_slots_naive_grid (now_utc day : Int) (busy : List BusyEv)
    (hco : cal_off busy = none) :
    get_free_slots now_utc day busy = .error naive_cmp_msg := by
  unfold get_free_slots
  rw [hco]
  rw [show WORK_HOURS = (420, 780) :: [(900, 1080), (1140, 1380)] from rfl]
  simp only [windows_loop]
  rw [show (((780 : Int) - 420).toNat / 60 + 1) = 6 + 1 from by decide]
  have hcmp : pyLe (min_bookable now_utc) ⟨day * 1440 + 420, (none : Option Int)⟩ =
      .error naive_cmp_msg := rfl
  rw [slot_loop_raises 6 (by omega) hcmp]

/-- C10 (amended): when the first fetched event is an all-day event, its
parsed endpoints are naive, the grid timezone becomes naive for every
queried day, and the very first lead-time comparison raises, so the
availability request responds HTTP 500 with the `TypeError` text. -/
theorem allday_first_event_500 (now_utc d d2 : Int) (summ : Option String)
    (rest : List GEvent) :
    get_available_slots now_utc (⟨.date d, .date d2, summ⟩ :: rest) =
      .err 500 ("Failed to fetch available slots: " ++ naive_cmp_msg) := by
  have hbusy : cal_off (List.map to_busy (⟨.date d, .date d2, summ⟩ :: rest)) = none := rfl
  have hfree : get_free_slots now_utc (now_utc.ediv 1440 + ((0 : Nat) : Int))
      (List.map to_busy (⟨.date d, .date d2, summ⟩ :: rest)) = .error naive_cmp_msg :=
    get_free_slots_naive_grid _ _ _ hbusy
  simp only [get_available_slots]
  rw [show List.range 8 = 0 :: [1, 2, 3, 4, 5, 6, 7] from rfl]
  simp only [days_loop]
  rw [hfree]

/-- Fetched events whose 8-day window contains an all-day (naive) event
on the queried day 0, preceded by an aware event: the first event is
aware (03:00-04:00 IST on day 3), the second is all-day on day 0. -/
def c10_events : List GEvent :=
  [⟨.timed 4500 330, .timed 4560 330, some "aware event"⟩, ⟨.date 0, .date 1, none⟩]

/-- Counterexample to C10 as stated: with the clock at 16:40 UTC on
day 0 (22:10 IST, so every slot of day 0 fails the lead-time check and
no comparison with the naive endpoints is ever evaluated), an
availability request whose window contains an all-day event on queried
day 0 responds 200, not 500. -/
theorem allday_event_can_return_ok :
    avail_code (get_available_slots 1000 c10_events) = 200 ∧
    avail_code (get_available_slots 1000 c10_events) ≠ 500 :=
  ⟨by decide, by decide⟩

/-! ## Lemmas about the booking route -/

/-- A created booking record echoes the requested slot's date and time
strings. -/
theorem slot_step_fields (minB : PyDT) (insert : CalEvent → Except String InsertResult)
    (student : List (String × String)) (s : SlotReq) (cb : CreatedBooking) (ev : CalEvent)
    (h : slot_step minB insert student s = .created cb ev) :
    s.date = some cb.date ∧ s.time = some cb.time := by
  simp only [slot_step] at h
  repeat' split at h
  all_goals try (cases h)
  all_goals simp_all

/-- Processing a run of slots that all get created just accumulates one
created record and one inserted event per slot, echoing the requested
date/time strings in order. -/
theorem book_loop_good_pre (total : Nat) (minB : PyDT)
    (insert : CalEvent → Except String InsertResult) (student : List (String × String)) :
    ∀ (pre l : List SlotReq) (created : List CreatedBooking) (inserted : List CalEvent),
      (∀ s ∈ pre, step_created minB insert student s = true) →
      ∃ cbs evs, book_loop total minB insert student (pre ++ l) created inserted =
          book_loop total minB insert student l (created ++ cbs) (inserted ++ evs) ∧
        cbs.length = pre.length ∧ evs.length = pre.length ∧
        cbs.map (fun cb => (some cb.date, some cb.time)) =
          pre.map (fun s => (s.date, s.time)) := by
  intro pre
  induction pre with
  | nil => intro l created inserted _; exact ⟨[], [], by simp, rfl, rfl, rfl⟩
  | cons s rest ih =>
    intro l created inserted hgood
    have hs := hgood s (List.mem_cons_self s rest)
    unfold step_created at hs
    cases hstep : slot_step minB insert student s with
    | badLead m => rw [hstep] at hs; simp at hs
    | failed m o => rw [hstep] at hs; simp at hs
    | created cb ev =>
      obtain ⟨cbs, evs, heq, hl1, hl2, hmap⟩ := ih l (created ++ [cb]) (inserted ++ [ev])
        (fun t ht => hgood t (List.mem_cons_of_mem s ht))
      refine ⟨cb :: cbs, ev :: evs, ?_, by simp [hl1], by simp [hl2], ?_⟩
      · show book_loop total minB insert student ((s :: rest) ++ l) created inserted = _
        simp only [List.cons_append, book_loop, hstep, List.append_eq]
        rw [heq]
        simp [List.append_assoc]
      · obtain ⟨hd, ht⟩ := slot_step_fields minB insert student s cb ev hstep
        simp [hmap, hd, ht]

/-- The loop reaches the success response only by creating an event for
every remaining slot: the returned records extend the accumulator with
one record per slot (echoing each request in order), the message is the
fixed success message, and exactly one calendar event was inserted per
slot. -/
theorem book_loop_success (total : Nat) (minB : PyDT)
    (insert : CalEvent → Except String InsertResult) (student : List (String × String)) :
    ∀ (slots : List SlotReq) (created : List CreatedBooking) (inserted : List CalEvent)
      (msg : String) (evs : List CreatedBooking) (ins2 : List CalEvent),
      book_loop total minB insert student slots created inserted = (.success msg evs, ins2) →
      msg = success_msg total ∧
      evs.map (fun cb => (some cb.date, some cb.time)) =
        created.map (fun cb => (some cb.date, some cb.time))
          ++ slots.map (fun s => (s.date, s.time)) ∧
      ins2.length = inserted.length + slots.length := by
  intro slots
  induction slots with
  | nil =>
    intro created inserted msg evs ins2 h
    simp only [book_loop, Prod.mk.injEq, BookResp.success.injEq] at h
    obtain ⟨⟨h1, h2⟩, h3⟩ := h
    subst h1; subst h2; subst h3
    exact ⟨rfl, by simp, by simp⟩
  | cons s rest ih =>
    intro created inserted msg evs ins2 h
    simp only [book_loop] at h
    cases hstep : slot_step minB insert student s with
    | created cb ev =>
      rw [hstep] at h
      obtain ⟨h1, h2, h3⟩ := ih (created ++ [cb]) (inserted ++ [ev]) msg evs ins2 h
      obtain ⟨hd, ht⟩ := slot_step_fields minB insert student s cb ev hstep
      refine ⟨h1, ?_, by
        simp only [List.length_append, List.length_cons, List.length_nil] at h3 ⊢
        omega⟩
      rw [h2]
      simp [hd, ht]
    | badLead m => rw [hstep] at h; simp at h
    | failed m o => rw [hstep] at h; simp at h

/-- C7: a missing JSON body, an empty (or defaulted-missing) student
record, or an empty (or defaulted-missing) slots list makes the booking
command answer HTTP 400, and the call creates no calendar events. -/
theorem booking_missing_input_400 (now_utc : Int)
    (insert : CalEvent → Except String InsertResult) (data : Option BookData)
    (h : data = none ∨ ∃ d, data = some d ∧ (d.student = [] ∨ d.slots = [])) :
    ∃ msg, book_slots now_utc insert data = (.err 400 msg, []) := by
  rcases h with rfl | ⟨d, rfl, hcase⟩
  · exact ⟨"No data received", rfl⟩
  · refine ⟨"Missing student or slots data", ?_⟩
    simp only [book_slots]
    have hc : (d.student.isEmpty || d.slots.isEmpty) = true := by
      rcases hcase with hs | hs <;> simp [hs]
    rw [if_pos hc]

/-- Witness for C7: a missing body, an empty student record, and an
empty slots list each produce HTTP 400 with no created events; the
theorem applies at the missing-body input. -/
theorem booking_missing_input_400_witness :
    book_slots 0 insert0 none = (.err 400 "No data received", []) ∧
    book_slots 0 insert0 (some ⟨[], [⟨some "1970-01-05", some "07:00-08:00"⟩]⟩) =
      (.err 400 "Missing student or slots data", []) ∧
    book_slots 0 insert0 (some ⟨stu1, []⟩) =
      (.err 400 "Missing student or slots data", []) ∧
    (∃ msg, book_slots 0 insert0 none = (.err 400 msg, [])) :=
  ⟨by decide, by decide, by decide,
    booking_missing_input_400 0 insert0 none (Or.inl rfl)⟩

/-- C4 (amended): when every slot before the first lead-time-violating
slot is processed successfully, the booking command answers HTTP 400 at
the violating slot and creates no events for it or for any later slot,
but the events already created for the earlier slots of the same call
remain created (one per earlier slot). -/
theorem booking_lead_violation_aborts (now_utc : Int)
    (insert : CalEvent → Except String InsertResult) (student : List (String × String))
    (pre : List SlotReq) (bad : SlotReq) (rest : List SlotReq)
    (hstu : student ≠ [])
    (hpre : ∀ s ∈ pre, step_created (min_bookable now_utc) insert student s = true)
    (hbad : step_lead_bad (min_bookable now_utc) insert student bad = true) :
    ∃ msg inserted, book_slots now_utc insert (some ⟨student, pre ++ bad :: rest⟩) =
        (.err 400 msg, inserted) ∧ inserted.length = pre.length := by
  simp only [book_slots]
  have hc : ¬((student.isEmpty || (pre ++ bad :: rest).isEmpty) = true) := by
    simp [List.isEmpty_iff, hstu]
  rw [if_neg hc]
  obtain ⟨cbs, evs, heq, hl1, hl2, hmap⟩ :=
    book_loop_good_pre (pre ++ bad :: rest).length (min_bookable now_utc) insert student
      pre (bad :: rest) [] [] hpre
  rw [heq]
  unfold step_lead_bad at hbad
  cases hstep : slot_step (min_bookable now_utc) insert student bad with
  | created cb ev => rw [hstep] at hbad; simp at hbad
  | failed m o => rw [hstep] at hbad; simp at hbad
  | badLead m =>
    refine ⟨m, [] ++ evs, ?_, by simpa using hl2⟩
    simp only [book_loop, hstep]

/-- A request whose first slot is valid and bookable and whose second
slot violates the 2-hour lead: the code answers 400 but the first
slot's event has already been created. -/
def c4_data : Option BookData :=
  some ⟨stu1, [⟨some "1970-01-02", some "07:00-08:00"⟩,
               ⟨some "1970-01-01", some "05:00-06:00"⟩]⟩

/-- Counterexample to C4 as stated: with the clock at the epoch
(minimum bookable 07:30 IST on 1970-01-01), booking a valid slot
followed by a lead-violating slot answers HTTP 400, yet one calendar
event (for the earlier slot) was created by the call — not zero. -/
theorem booking_lead_violation_keeps_created :
    resp_code (book_slots 0 insert0 c4_data).1 = 400 ∧
    (book_slots 0 insert0 c4_data).2.length = 1 ∧
    (book_slots 0 insert0 c4_data).2 ≠ [] :=
  ⟨by decide, by decide, by decide⟩

/-- Witness for the amended C4: at the concrete counterexample input,
the amended theorem applies (its hypotheses are discharged by
computation) and yields the 400 response with exactly one surviving
event for the one earlier slot. -/
theorem booking_lead_violation_aborts_witness :
    (∀ s ∈ [(⟨some "1970-01-02", some "07:00-08:00"⟩ : SlotReq)],
      step_created (min_bookable 0) insert0 stu1 s = true) ∧
    step_lead_bad (min_bookable 0) insert0 stu1 ⟨some "1970-01-01", some "05:00-06:00"⟩ = true ∧
    (∃ msg inserted,
      book_slots 0 insert0 (some ⟨stu1,
          [(⟨some "1970-01-02", some "07:00-08:00"⟩ : SlotReq)]
            ++ ⟨some "1970-01-01", some "05:00-06:00"⟩ :: []⟩) =
        (.err 400 msg, inserted) ∧
      inserted.length = [(⟨some "1970-01-02", some "07:00-08:00"⟩ : SlotReq)].length) :=
  ⟨by decide, by decide,
    booking_lead_violation_aborts 0 insert0 stu1
      [⟨some "1970-01-02", some "07:00-08:00"⟩] ⟨some "1970-01-01", some "05:00-06:00"⟩ []
      (by decide) (by decide) (by decide)⟩

/-- C5 (amended): a slot whose date or time-range string is malformed
makes the per-slot pipeline raise without inserting an event, and when
processing reaches it (all earlier slots processed successfully) the
booking command answers HTTP 500 — a per-slot processing error — not
HTTP 400. -/
theorem malformed_slot_gives_500 (now_utc : Int)
    (insert : CalEvent → Except String InsertResult) (student : List (String × String))
    (pre : List SlotReq) (bad : SlotReq) (rest : List SlotReq) (emsg : String)
    (hstu : student ≠ [])
    (hpre : ∀ s ∈ pre, step_created (min_bookable now_utc) insert student s = true)
    (hbad : slot_step (min_bookable now_utc) insert student bad = .failed emsg none) :
    ∃ inserted, book_slots now_utc insert (some ⟨student, pre ++ bad :: rest⟩) =
        (.err 500 emsg, inserted) ∧ inserted.length = pre.length := by
  simp only [book_slots]
  have hc : ¬((student.isEmpty || (pre ++ bad :: rest).isEmpty) = true) := by
    simp [List.isEmpty_iff, hstu]
  rw [if_neg hc]
  obtain ⟨cbs, evs, heq, hl1, hl2, hmap⟩ :=
    book_loop_good_pre (pre ++ bad :: rest).length (min_bookable now_utc) insert student
      pre (bad :: rest) [] [] hpre
  rw [heq]
  refine ⟨[] ++ evs ++ (none : Option CalEvent).toList, ?_, by simpa using hl2⟩
  simp only [book_loop, hbad]

/-- A request whose single slot has a time-range string that is not of
the form HH:MM-HH:MM. -/
def c5_data : Option BookData := some ⟨stu1, [⟨some "1970-01-05", some "badtime"⟩]⟩

/-- Counterexample to C5 as stated: a malformed time-range string makes
the booking command answer HTTP 500, not the claimed HTTP 400. -/
theorem malformed_slot_not_400 :
    resp_code (book_slots 0 insert0 c5_data).1 = 500 ∧
    resp_code (book_slots 0 insert0 c5_data).1 ≠ 400 :=
  ⟨by decide, by decide⟩

/-- Witness for the amended C5, at two malformed inputs.  A malformed
time range: the slot raises at the `split('-')` unpacking (its date
parses, its time range has no dash).  A malformed date: the short year
"70" fails the four-digit `%Y` pattern of `strptime`, so the slot
raises at date parsing.  The theorem applies to each with an empty
prefix, giving the 500 answer with zero created events both times. -/
theorem malformed_slot_gives_500_witness :
    slot_step (min_bookable 0) insert0 stu1 ⟨some "1970-01-05", some "badtime"⟩ =
      .failed (slot_err "1970-01-05" "badtime" "ValueError: unpack") none ∧
    parse_date "1970-01-05" = .ok 4 ∧
    split2_dash "badtime" = none ∧
    parse_date "70-01-05" =
      .error "ValueError: time data does not match format %Y-%m-%d" ∧
    slot_step (min_bookable 0) insert0 stu1 ⟨some "70-01-05", some "07:00-08:00"⟩ =
      .failed (slot_err "70-01-05" "07:00-08:00"
        "ValueError: time data does not match format %Y-%m-%d") none ∧
    (∃ inserted,
      book_slots 0 insert0 (some ⟨stu1, [] ++ ⟨some "1970-01-05", some "badtime"⟩ :: []⟩) =
        (.err 500 (slot_err "1970-01-05" "badtime" "ValueError: unpack"), inserted) ∧
      inserted.length = ([] : List SlotReq).length) ∧
    (∃ inserted,
      book_slots 0 insert0 (some ⟨stu1, [] ++ ⟨some "70-01-05", some "07:00-08:00"⟩ :: []⟩) =
        (.err 500 (slot_err "70-01-05" "07:00-08:00"
          "ValueError: time data does not match format %Y-%m-%d"), inserted) ∧
      inserted.length = ([] : List SlotReq).length) :=
  ⟨by decide, by decide, by decide, by decide, by decide,
    malformed_slot_gives_500 0 insert0 stu1 [] ⟨some "1970-01-05", some "badtime"⟩ []
      (slot_err "1970-01-05" "badtime" "ValueError: unpack")
      (by decide) (by simp) (by decide),
    malformed_slot_gives_500 0 insert0 stu1 [] ⟨some "70-01-05", some "07:00-08:00"⟩ []
      (slot_err "70-01-05" "07:00-08:00"
        "ValueError: time data does not match format %Y-%m-%d")
      (by decide) (by simp) (by decide)⟩

/-- C8: the booking command validates each requested slot only for
parseability and the 2-hour lead.  `step_created` demands nothing
beyond parsing, the lead re-check, and upstream success — no
working-hours, duration, or busy-interval condition — and whenever all
slots satisfy it, the command books every slot: HTTP 200 with one
created record and one inserted calendar event per requested slot, in
request order.  The witness books a 2.5-hour slot at 02:00, far outside
every working-hour window. -/
theorem booking_checks_only_parse_and_lead (now_utc : Int)
    (insert : CalEvent → Except String InsertResult) (student : List (String × String))
    (slots : List SlotReq)
    (hstu : student ≠ []) (hslots : slots ≠ [])
    (hgood : ∀ s ∈ slots, step_created (min_bookable now_utc) insert student s = true) :
    ∃ evs inserted,
      book_slots now_utc insert (some ⟨student, slots⟩) =
        (.success (success_msg slots.length) evs, inserted) ∧
      evs.length = slots.length ∧ inserted.length = slots.length ∧
      evs.map (fun cb => (some cb.date, some cb.time)) =
        slots.map (fun s => (s.date, s.time)) := by
  simp only [book_slots]
  have hc : ¬((student.isEmpty || slots.isEmpty) = true) := by
    simp [List.isEmpty_iff, hstu, hslots]
  rw [if_neg hc]
  obtain ⟨cbs, evs, heq, hl1, hl2, hmap⟩ :=
    book_loop_good_pre slots.length (min_bookable now_utc) insert student
      slots [] [] [] hgood
  rw [List.append_nil] at heq
  simp only [List.nil_append, book_loop] at heq
  exact ⟨cbs, evs, heq, hl1, hl2, hmap⟩

/-- Two bookable requested slots, the first one 2.5 hours long starting
at 02:00 IST — outside every configured working-hour window. -/
def c8_slots : List SlotReq :=
  [⟨some "1970-01-05", some "02:00-04:30"⟩, ⟨some "1970-01-06", some "21:00-22:00"⟩]

/-- The created-booking records the booking command returns for
`c8_slots`. -/
def c8_evs : List CreatedBooking :=
  [⟨"evt-1", "link-1", "meet-1", "1970-01-05", "02:00-04:30"⟩,
   ⟨"evt-1", "link-1", "meet-1", "1970-01-06", "21:00-22:00"⟩]

/-- The calendar events the booking command inserts for `c8_slots`. -/
def c8_inserted : List CalEvent :=
  [⟨"Python Session - Asha", ⟨5880, some 330⟩, ⟨6030, some 330⟩⟩,
   ⟨"Python Session - Asha", ⟨8460, some 330⟩, ⟨8520, some 330⟩⟩]

/-- Witness for C8: both slots — including the out-of-hours,
non-one-hour 02:00-04:30 one — are created, with HTTP 200; the theorem
applies at this input. -/
theorem booking_checks_only_parse_and_lead_witness :
    (∀ s ∈ c8_slots, step_created (min_bookable 0) insert0 stu1 s = true) ∧
    book_slots 0 insert0 (some ⟨stu1, c8_slots⟩) =
      (.success (success_msg 2) c8_evs, c8_inserted) ∧
    (∃ evs inserted,
      book_slots 0 insert0 (some ⟨stu1, c8_slots⟩) =
        (.success (success_msg c8_slots.length) evs, inserted) ∧
      evs.length = c8_slots.length ∧ inserted.length = c8_slots.length ∧
      evs.map (fun cb => (some cb.date, some cb.time)) =
        c8_slots.map (fun s => (s.date, s.time))) :=
  ⟨by decide, by decide,
    booking_checks_only_parse_and_lead 0 insert0 stu1 c8_slots
      (by decide) (by decide) (by decide)⟩

/-- C9: whenever the booking command answers HTTP 200, the request body
was present and every requested slot was booked: the returned records
echo the requested (date, time) pairs one-for-one in request order, the
message reports the full requested count, and exactly one calendar
event was inserted per requested slot.  Error responses (`BookResp.err`)
carry no events list at all, so no response ever exposes a partial
created-events list. -/
theorem booking_success_all_created (now_utc : Int)
    (insert : CalEvent → Except String InsertResult) (data : Option BookData)
    (msg : String) (evs : List CreatedBooking) (inserted : List CalEvent)
    (h : book_slots now_utc insert data = (.success msg evs, inserted)) :
    ∃ d, data = some d ∧ msg = success_msg d.slots.length ∧
      evs.map (fun cb => (some cb.date, some cb.time)) =
        d.slots.map (fun s => (s.date, s.time)) ∧
      evs.length = d.slots.length ∧ inserted.length = d.slots.length := by
  cases data with
  | none => simp [book_slots] at h
  | some d =>
    refine ⟨d, rfl, ?_⟩
    simp only [book_slots] at h
    by_cases hcond : (d.student.isEmpty || d.slots.isEmpty) = true
    · rw [if_pos hcond] at h
      simp at h
    · rw [if_neg hcond] at h
      obtain ⟨h1, h2, h3⟩ :=
        book_loop_success d.slots.length (min_bookable now_utc) insert d.student
          d.slots [] [] msg evs inserted h
      have hlen := congrArg List.length h2
      simp only [List.length_map, List.map_nil, List.nil_append] at hlen h2
      exact ⟨h1, h2, hlen, by simpa using h3⟩

/-- A single valid requested slot for the C9 witness. -/
def c9_slots : List SlotReq := [⟨some "1970-01-03", some "07:00-08:00"⟩]

/-- The created-booking record returned for `c9_slots`. -/
def c9_evs : List CreatedBooking :=
  [⟨"evt-1", "link-1", "meet-1", "1970-01-03", "07:00-08:00"⟩]

/-- The calendar event inserted for `c9_slots`. -/
def c9_inserted : List CalEvent :=
  [⟨"Python Session - Asha", ⟨3300, some 330⟩, ⟨3360, some 330⟩⟩]

/-- Witness for C9: a successful one-slot booking returns HTTP 200 with
exactly the one echoed record and one inserted event; the theorem
applies at this response. -/
theorem booking_success_all_created_witness :
    book_slots 0 insert0 (some ⟨stu1, c9_slots⟩) =
      (.success (success_msg 1) c9_evs, c9_inserted) ∧
    (∃ d, (some ⟨stu1, c9_slots⟩ : Option BookData) = some d ∧
      success_msg 1 = success_msg d.slots.length ∧
      c9_evs.map (fun cb => (some cb.date, some cb.time)) =
        d.slots.map (fun s => (s.date, s.time)) ∧
      c9_evs.length = d.slots.length ∧ c9_inserted.length = d.slots.length) :=
  ⟨by decide,
    booking_success_all_created 0 insert0 (some ⟨stu1, c9_slots⟩)
      (success_msg 1) c9_evs c9_inserted (by decide)⟩
